import Mathlib

/-!
# Verification of the KisaanMitra multi-agent advisory system

A shallow embedding of the repository's Python components and proofs of the
specified properties.  Python values are modelled by the inductive `PyVal`,
Python exceptions by `PyExc`, and code that may raise runs in `Except PyExc`.

Components embedded here:
* `FarmPracticesAgent.generate_advice` (sub_agents/farm_practices_agent/agent.py)
* `FarmerProfileAgent` profile store and `recommend_for_farmer`
  (sub_agents/farm_profile_agent/agent.py)
* `SoilAgent.analyze_soil`, `MarketAgent.get_prices`, `WeatherAgent.__init__`
* `ManagerAgent.__init__` key check and `ManagerAgent.on_message`
  (manager/agent.py)
-/

namespace KisaanMitra

/-- Model of a Python runtime value, as far as this code base needs:
`None`, booleans, ints, floats (modelled exactly as rationals), strings,
dicts with string keys, and lists. -/
inductive PyVal : Type where
  | vNone : PyVal
  | vBool : Bool → PyVal
  | vInt : Int → PyVal
  | vFloat : ℚ → PyVal
  | vStr : String → PyVal
  | vDict : List (String × PyVal) → PyVal
  | vList : List PyVal → PyVal

/-- Model of a raised Python exception; `msg` is what `str(e)` prints. -/
inductive PyExc : Type where
  | typeError : String → PyExc
  | attributeError : String → PyExc
  | valueError : String → PyExc
  | runtimeError : String → PyExc
  | keyError : String → PyExc
  | other : String → PyExc

/-- `str(e)` for an exception: just the message, as interpolated by f-strings. -/
def PyExc.msg : PyExc → String
  | .typeError m => m
  | .attributeError m => m
  | .valueError m => m
  | .runtimeError m => m
  | .keyError m => m
  | .other m => m

/-- Python's `type(v).__name__`, used in error messages. -/
def typeName : PyVal → String
  | .vNone => "NoneType"
  | .vBool _ => "bool"
  | .vInt _ => "int"
  | .vFloat _ => "float"
  | .vStr _ => "str"
  | .vDict _ => "dict"
  | .vList _ => "list"

/-- First-match lookup in an association list, i.e. Python `dict` lookup
(the dicts arising here never carry duplicate keys). -/
def dbLookup : List (String × PyVal) → String → Option PyVal
  | [], _ => Option.none
  | (k, v) :: rest, key => if k = key then some v else dbLookup rest key

/-- Python `d.get(key, default)`. -/
def dictGetD (d : List (String × PyVal)) (key : String) (default : PyVal) : PyVal :=
  (dbLookup d key).getD default

/-- Is `needle` a prefix of the character list? -/
def charPrefix : List Char → List Char → Bool
  | [], _ => true
  | _ :: _, [] => false
  | a :: as, b :: bs => a == b && charPrefix as bs

/-- Does `needle` occur as a contiguous sublist? -/
def charSub (needle : List Char) : List Char → Bool
  | [] => charPrefix needle []
  | c :: cs => charPrefix needle (c :: cs) || charSub needle cs

/-- Python `needle in hay` for strings: substring containment. -/
def strContains (hay needle : String) : Bool :=
  charSub needle.toList hay.toList

/-- Python `s.lower()` (the conditions this code compares are ASCII). -/
def strLower (s : String) : String :=
  String.mk (s.toList.map Char.toLower)

/-- The float `7.5` in normal form (`Rat.mk'` so that proofs evaluate). -/
def q75 : ℚ := Rat.mk' 15 2 (by decide) (by decide)

/-- The float `6.8` (the mock soil pH) in normal form. -/
def q68 : ℚ := Rat.mk' 34 5 (by decide) (by decide)

/-- Python `hay.startswith(pre)`. -/
def strStarts (hay pre : String) : Bool :=
  charPrefix pre.toList hay.toList

/-- The numeric value of a Python number (`bool` counts as `int`), if any. -/
def pyNum : PyVal → Option ℚ
  | .vInt n => some (n : ℚ)
  | .vFloat q => some q
  | .vBool b => some (if b then 1 else 0)
  | _ => Option.none

/-- Python `v > 7`: defined for numbers, a `TypeError` otherwise. -/
def pyGtSeven (v : PyVal) : Except PyExc Bool :=
  match pyNum v with
  | some q => Except.ok (decide (q > 7))
  | Option.none =>
      Except.error (.typeError
        ("'>' not supported between instances of '" ++ typeName v ++ "' and 'int'"))

/-- Python `"x" == v` where the left side is a string: true only for an
equal string (cross-type `==` is `False` for the shapes arising here). -/
def eqToStr (s : String) : PyVal → Bool
  | .vStr t => s == t
  | _ => false

/-- Python `needle in container` for a string needle: substring test on a
string, key membership on a dict, element membership on a list, and a
`TypeError` on a non-iterable value. -/
def pyInStr (needle : String) (container : PyVal) : Except PyExc Bool :=
  match container with
  | .vStr s => Except.ok (strContains s needle)
  | .vDict d => Except.ok (d.any (fun p => p.1 == needle))
  | .vList xs => Except.ok (xs.any (eqToStr needle))
  | v => Except.error (.typeError
      ("argument of type '" ++ typeName v ++ "' is not iterable"))

/-! ## FarmPracticesAgent.generate_advice -/

/-- The four canonical advice strings of `generate_advice`. -/
def paddyAdvice : String := "Plant paddy for high yield due to rain and alkaline soil."

def droughtAdvice : String :=
  "Soil looks dry; consider drought-tolerant crops like millets or pulses."

def humidAdvice : String :=
  "Conditions are humid; maintain pest control and proper ventilation."

def genericAdvice : String := "Proceed with wheat or pulses; monitor moisture regularly."

/-- The condition-extraction phase of `generate_advice`: `condition` starts
as `""`; a dict weather yields `weather.get("condition", "")`, a string
weather is taken as is, and otherwise the code evaluates
`"raw_output" in weather` — raising on non-iterable values, and indexing
`weather["raw_output"]` (a `TypeError` on a list) when the test is true. -/
def extractCondition (weather : PyVal) : Except PyExc PyVal :=
  match weather with
  | .vDict d => Except.ok (dictGetD d "condition" (.vStr ""))
  | .vStr s => Except.ok (.vStr s)
  | .vList xs =>
      if xs.any (eqToStr "raw_output") then
        Except.error (.typeError "list indices must be integers or slices, not str")
      else
        Except.ok (.vStr "")
  | v => Except.error (.typeError
      ("argument of type '" ++ typeName v ++ "' is not iterable"))

/-- `condition.lower()` is applied only when the condition is a string. -/
def lowerIfStr : PyVal → PyVal
  | .vStr s => .vStr (strLower s)
  | v => v

/-- Python `soil.get("pH", 7)`: an `AttributeError` unless `soil` is a dict. -/
def soilGetPH (soil : PyVal) : Except PyExc PyVal :=
  match soil with
  | .vDict d => Except.ok (dictGetD d "pH" (.vInt 7))
  | v => Except.error (.attributeError
      ("'" ++ typeName v ++ "' object has no attribute 'get'"))

/-- Rules 2–4 of the chain: `elif "dry" in condition or "sunny" in
condition`, `elif "humid" in condition`, `else`, with Python's
short-circuit `or`. -/
def adviceRulesTail (condition : PyVal) : Except PyExc String :=
  match pyInStr "dry" condition with
  | Except.error e => Except.error e
  | Except.ok dry =>
    match (if dry then Except.ok true else pyInStr "sunny" condition) with
    | Except.error e => Except.error e
    | Except.ok rule2 =>
      if rule2 then Except.ok droughtAdvice
      else
        match pyInStr "humid" condition with
        | Except.error e => Except.error e
        | Except.ok humid =>
          if humid then Except.ok humidAdvice
          else Except.ok genericAdvice

/-- Rule 1 and the fall-through: `if soil.get("pH", 7) > 7 and "rain" in
condition` (the membership test runs only when the comparison held). -/
def adviceRules (alkaline : Bool) (condition : PyVal) : Except PyExc String :=
  match (if alkaline then pyInStr "rain" condition else Except.ok false) with
  | Except.error e => Except.error e
  | Except.ok rule1 =>
    if rule1 then Except.ok paddyAdvice else adviceRulesTail condition

/-- The body of the `try` block of `generate_advice`: extract and lowercase
the condition, evaluate `soil.get("pH", 7) > 7`, then run the rule chain. -/
def adviceTryBody (soil weather _market : PyVal) : Except PyExc String :=
  match extractCondition weather with
  | Except.error e => Except.error e
  | Except.ok condition0 =>
    let condition := lowerIfStr condition0
    match soilGetPH soil with
    | Except.error e => Except.error e
    | Except.ok pH =>
      match pyGtSeven pH with
      | Except.error e => Except.error e
      | Except.ok alkaline => adviceRules alkaline condition

/-- `FarmPracticesAgent.generate_advice`: the `try` body with the
`except Exception` fallback. -/
def generate_advice (soil weather market : PyVal) : String :=
  match adviceTryBody soil weather market with
  | Except.ok s => s
  | Except.error e => "Could not generate advice due to: " ++ e.msg

/-! ## Python string rendering (f-strings and json.dumps) -/

/-- Left-pad a numeral string with zeros up to width `w`. -/
def padZeros (s : String) (w : Nat) : String :=
  if s.length ≥ w then s else String.mk (List.replicate (w - s.length) '0') ++ s

/-- Python's `repr` of a float, for the decimal fractions this code uses:
the shortest decimal expansion, with a trailing `.0` for integral values
(a non-decimal rational falls back to fraction notation).  Computed on the
reduced numerator and denominator with integer arithmetic only. -/
def ratRepr (q : ℚ) : String :=
  let sign := if q.num < 0 then "-" else ""
  let n := q.num.natAbs
  let d := q.den
  match (List.range 18).find? (fun k => 10 ^ k % d == 0) with
  | some k =>
      let scaled := n * (10 ^ k / d)
      let ip := scaled / 10 ^ k
      let fp := scaled % 10 ^ k
      if k = 0 then sign ++ toString ip ++ ".0"
      else sign ++ toString ip ++ "." ++ padZeros (toString fp) k
  | Option.none => sign ++ toString n ++ "/" ++ toString d

mutual

/-- Python `repr(v)` (which `str` uses for values inside containers). -/
def pyRepr : PyVal → String
  | .vNone => "None"
  | .vBool b => if b then "True" else "False"
  | .vInt n => toString n
  | .vFloat q => ratRepr q
  | .vStr s => "'" ++ s ++ "'"
  | .vDict d => "\x7b" ++ pyReprFields d ++ "\x7d"
  | .vList l => "[" ++ pyReprElems l ++ "]"

/-- Renders the `'key': value` entries of a dict, comma-separated. -/
def pyReprFields : List (String × PyVal) → String
  | [] => ""
  | [(k, v)] => "'" ++ k ++ "': " ++ pyRepr v
  | (k, v) :: p :: rest => "'" ++ k ++ "': " ++ pyRepr v ++ ", " ++ pyReprFields (p :: rest)

/-- Renders the elements of a list, comma-separated. -/
def pyReprElems : List PyVal → String
  | [] => ""
  | [v] => pyRepr v
  | v :: w :: rest => pyRepr v ++ ", " ++ pyReprElems (w :: rest)

end

/-- Python `str(v)`, as used by f-string interpolation: a bare string for
`str` values, `repr`-style rendering otherwise. -/
def pyStr : PyVal → String
  | .vStr s => s
  | v => pyRepr v

mutual

/-- `json.dumps(v, ensure_ascii=False)` with the default separators. -/
def jsonDumps : PyVal → String
  | .vNone => "null"
  | .vBool b => if b then "true" else "false"
  | .vInt n => toString n
  | .vFloat q => ratRepr q
  | .vStr s => "\"" ++ s ++ "\""
  | .vDict d => "\x7b" ++ jsonFields d ++ "\x7d"
  | .vList l => "[" ++ jsonElems l ++ "]"

/-- Renders the `"key": value` entries of a JSON object, comma-separated. -/
def jsonFields : List (String × PyVal) → String
  | [] => ""
  | [(k, v)] => "\"" ++ k ++ "\": " ++ jsonDumps v
  | (k, v) :: p :: rest => "\"" ++ k ++ "\": " ++ jsonDumps v ++ ", " ++ jsonFields (p :: rest)

/-- Renders the elements of a JSON array, comma-separated. -/
def jsonElems : List PyVal → String
  | [] => ""
  | [v] => jsonDumps v
  | v :: w :: rest => jsonDumps v ++ ", " ++ jsonElems (w :: rest)

end

/-! ## SoilAgent and MarketAgent mock data -/

/-- `SoilAgent.analyze_soil`'s static return value. -/
def soilMock : PyVal :=
  .vDict [("moisture", .vStr "25%"), ("pH", .vFloat q68),
          ("nitrogen", .vStr "moderate"),
          ("recommendation", .vStr "Suitable for wheat and pulses")]

/-- `MarketAgent.get_prices`'s static return value. -/
def marketMock : PyVal :=
  .vDict [("wheat", .vStr "₹2400/quintal"), ("rice", .vStr "₹2600/quintal"),
          ("soybean", .vStr "₹5400/quintal")]

/-! ## FarmerProfileAgent: profile store -/

/-- The deserialized contents of `farmer_profiles.json`: one JSON object
mapping farmer ids to profiles. -/
def Db : Type := List (String × PyVal)

/-- Python `db[farmer_id] = profile`: replace the binding if the key is
present, append it otherwise. -/
def dbInsert : List (String × PyVal) → String → PyVal → List (String × PyVal)
  | [], key, v => [(key, v)]
  | (k, w) :: rest, key, v =>
      if k = key then (key, v) :: rest else (k, w) :: dbInsert rest key v

/-- Python `del db[farmer_id]`: drop the binding for the key. -/
def dbErase : List (String × PyVal) → String → List (String × PyVal)
  | [], _ => []
  | (k, w) :: rest, key =>
      if k = key then dbErase rest key else (k, w) :: dbErase rest key

/-- Python `farmer_id in db`. -/
def dbHasKey (db : List (String × PyVal)) (key : String) : Bool :=
  (dbLookup db key).isSome

/-- `FarmerProfileAgent.get_profile`: `db.get(farmer_id)`, `None` when
absent. -/
def get_profile (db : Db) (farmer_id : String) : Option PyVal :=
  dbLookup db farmer_id

/-- `FarmerProfileAgent.create_or_update_profile`: writes
`db[farmer_id] = profile`, persists, and returns `db[farmer_id]`
(a `KeyError` branch is unreachable after the assignment). -/
def create_or_update_profile (db : Db) (farmer_id : String) (profile : PyVal) :
    Db × Except PyExc PyVal :=
  let db2 := dbInsert db farmer_id profile
  (db2,
   match dbLookup db2 farmer_id with
   | some v => Except.ok v
   | Option.none => Except.error (.keyError farmer_id))

/-- `FarmerProfileAgent.delete_profile`: delete and persist when the key is
present (returning `True`), otherwise leave the store untouched and return
`False`. -/
def delete_profile (db : Db) (farmer_id : String) : Db × Bool :=
  if dbHasKey db farmer_id then (dbErase db farmer_id, true) else (db, false)

/-! ## FarmerProfileAgent: Gemini call and recommendation -/

/-- Python truthiness of a value, as used by `if not profile:`. -/
def pyTruthy : PyVal → Bool
  | .vNone => false
  | .vBool b => b
  | .vInt n => n != 0
  | .vFloat q => q != 0
  | .vStr s => s != ""
  | .vDict d => !d.isEmpty
  | .vList l => !l.isEmpty

/-- The response-shape fallback chain of `_call_gemini`: try
`j["candidates"][0].get("output", "")`, then `j["output"].get("text", "")`,
then `json.dumps(j)`. Indexing an empty candidate list or calling `.get` on
a non-dict raises, as in Python. -/
def extractGeminiText (j : PyVal) : Except PyExc String :=
  match j with
  | .vDict d =>
      match dbLookup d "candidates" with
      | some (.vList []) => Except.error (.other "list index out of range")
      | some (.vList (first :: _)) =>
          match first with
          | .vDict fd =>
              match dictGetD fd "output" (.vStr "") with
              | .vStr s => Except.ok s
              | v => Except.ok (pyStr v)
          | v => Except.error (.attributeError
              ("'" ++ typeName v ++ "' object has no attribute 'get'"))
      | _ =>
          match dbLookup d "output" with
          | some (.vDict od) =>
              match dictGetD od "text" (.vStr "") with
              | .vStr s => Except.ok s
              | v => Except.ok (pyStr v)
          | some v => Except.error (.attributeError
              ("'" ++ typeName v ++ "' object has no attribute 'get'"))
          | Option.none => Except.ok (jsonDumps (.vDict d))
  | v => Except.ok (jsonDumps v)

/-- `FarmerProfileAgent._call_gemini`, with the HTTP POST abstracted as an
oracle from the prompt to a parsed JSON response (or a raised error): the
missing/empty key check raises `RuntimeError` before any request is made. -/
def call_gemini (apiKey : Option String) (http : String → Except PyExc PyVal)
    (prompt : String) : Except PyExc String :=
  match apiKey with
  | Option.none => Except.error (.runtimeError "GEMINI_API_KEY not set in .env")
  | some k =>
      if k = "" then
        Except.error (.runtimeError "GEMINI_API_KEY not set in .env")
      else
        match http prompt with
        | Except.error e => Except.error e
        | Except.ok j => extractGeminiText j

/-- The prompt built by `recommend_for_farmer` from the profile and the
context. -/
def buildPrompt (profile context : PyVal) : String :=
  "Farmer profile: " ++ jsonDumps profile ++ "\n\n" ++
  "Context: " ++ jsonDumps context ++ "\n\n" ++
  "Using the above info, provide a short farming recommendation tailored to the farmer." ++
  " Include 2-3 practical steps, water/fertilizer considerations, and a short rationale."

/-- The error result for a missing (or falsy) profile. -/
def noProfileError (farmer_id : String) : PyVal :=
  .vDict [("error", .vStr ("No profile found for farmer_id=" ++ farmer_id))]

/-- `FarmerProfileAgent.recommend_for_farmer`, instrumented: the external
call is the oracle `gemini`, and the second component collects the prompts
actually sent to it, so "never contacts the external service" is `= []`.
`if not profile:` tests Python truthiness of the looked-up profile. -/
def recommend_for_farmer (db : Db) (gemini : String → Except PyExc String)
    (farmer_id : String) (context : PyVal) : PyVal × List String :=
  let profile := get_profile db farmer_id
  match profile with
  | Option.none => (noProfileError farmer_id, [])
  | some p =>
      if pyTruthy p then
        let prompt := buildPrompt p context
        match gemini prompt with
        | Except.ok output => (.vDict [("recommendation", .vStr output)], [prompt])
        | Except.error e =>
            (.vDict [("error", .vStr ("Failed to call Gemini: " ++ e.msg))], [prompt])
      else (noProfileError farmer_id, [])

/-! ## Component constructors and the API-key secret -/

/-- The key check in `ManagerAgent.__init__`: `os.getenv` yields `None` or
a string, `if not gemini_key:` raises `ValueError` on `None` or `""`. -/
def managerAgentInit (gemini_key : Option String) : Except PyExc Unit :=
  match gemini_key with
  | Option.none => Except.error (.valueError "GEMINI_API_KEY is not set in the .env file.")
  | some k =>
      if k = "" then Except.error (.valueError "GEMINI_API_KEY is not set in the .env file.")
      else Except.ok ()

/-- `WeatherAgent.__init__`: stores `os.getenv("GEMINI_API_KEY")` in
`self.gemini_key` with no check; construction always succeeds. -/
def weatherAgentInit (gemini_key : Option String) : Except PyExc (Option String) :=
  Except.ok gemini_key

/-- `FarmerProfileAgent.__init__`: stores the storage path with no key
check; construction always succeeds. -/
def farmerProfileAgentInit : Except PyExc Unit :=
  Except.ok ()

/-! ## ManagerAgent.on_message (the orchestrator) -/

/-- The collaborators `on_message` calls, each allowed to raise: the five
sub-agent methods invoked in the fixed pipeline order. -/
structure Collaborators where
  analyze_soil : Except PyExc PyVal
  get_forecast : String → Except PyExc PyVal
  get_prices : Except PyExc PyVal
  practice_advice : PyVal → PyVal → PyVal → Except PyExc String
  recommend : String → PyVal → Except PyExc PyVal

/-- The f-string report assembled on full success. -/
def reportString (location : String) (soil weather market : PyVal)
    (advice : String) (display : PyVal) : String :=
  "🌾 **KisaanMitra Report** 🌾\n\n" ++
  "📍 *Region:* " ++ location ++ "\n\n" ++
  "**Soil Data:** " ++ pyStr soil ++ "\n" ++
  "**Weather:** " ++ pyStr weather ++ "\n" ++
  "**Market:** " ++ pyStr market ++ "\n\n" ++
  "🧠 *General Advice:* " ++ advice ++ "\n\n" ++
  "🤝 *Personalized Recommendation:* " ++ pyStr display

/-- The body of `on_message`'s `try` block: the fixed farmer id and
location, the five collaborator calls in order, and the final
`personalized.get('recommendation', personalized)` (an `AttributeError` on
a non-dict result). -/
def onMessageBody (c : Collaborators) (_message : String) : Except PyExc String :=
  let location := "Andhra Pradesh"
  let farmer_id := "farmer_001"
  match c.analyze_soil with
  | Except.error e => Except.error e
  | Except.ok soil =>
    match c.get_forecast location with
    | Except.error e => Except.error e
    | Except.ok weather =>
      match c.get_prices with
      | Except.error e => Except.error e
      | Except.ok market =>
        match c.practice_advice soil weather market with
        | Except.error e => Except.error e
        | Except.ok advice =>
          let context := PyVal.vDict
            [("soil", soil), ("weather", weather), ("market", market)]
          match c.recommend farmer_id context with
          | Except.error e => Except.error e
          | Except.ok personalized =>
            match personalized with
            | .vDict d =>
                Except.ok (reportString location soil weather market advice
                  (dictGetD d "recommendation" (.vDict d)))
            | v => Except.error (.attributeError
                ("'" ++ typeName v ++ "' object has no attribute 'get'"))

/-- `ManagerAgent.on_message`: the `try` body with the catch-all
`except Exception` that formats a single error string. -/
def on_message (c : Collaborators) (message : String) : String :=
  match onMessageBody c message with
  | Except.ok reply => reply
  | Except.error e => "❌ Error: An exception occurred: " ++ e.msg

/-- The advice-selection rule as worded by the spec (§4.2): first-match-wins
on the lowercased condition, for comparison with `generate_advice`. -/
def specAdviceRule (pH : ℚ) (lc : String) : String :=
  if pH > 7 ∧ strContains lc "rain" = true then paddyAdvice
  else if strContains lc "dry" = true ∨ strContains lc "sunny" = true then droughtAdvice
  else if strContains lc "humid" = true then humidAdvice
  else genericAdvice

/-- Some step of the pipeline raises `e`, all earlier steps succeeding. -/
def StepRaises (c : Collaborators) (e : PyExc) : Prop :=
  c.analyze_soil = Except.error e ∨
  (∃ soil, c.analyze_soil = Except.ok soil ∧
    c.get_forecast "Andhra Pradesh" = Except.error e) ∨
  (∃ soil weather, c.analyze_soil = Except.ok soil ∧
    c.get_forecast "Andhra Pradesh" = Except.ok weather ∧
    c.get_prices = Except.error e) ∨
  (∃ soil weather market, c.analyze_soil = Except.ok soil ∧
    c.get_forecast "Andhra Pradesh" = Except.ok weather ∧
    c.get_prices = Except.ok market ∧
    c.practice_advice soil weather market = Except.error e) ∨
  (∃ soil weather market advice, c.analyze_soil = Except.ok soil ∧
    c.get_forecast "Andhra Pradesh" = Except.ok weather ∧
    c.get_prices = Except.ok market ∧
    c.practice_advice soil weather market = Except.ok advice ∧
    c.recommend "farmer_001"
      (PyVal.vDict [("soil", soil), ("weather", weather), ("market", market)]) =
      Except.error e)

/-! ## Store lemmas -/

/-- Looking up a key right after inserting it yields the inserted value. -/
theorem dbLookup_dbInsert_self (db : List (String × PyVal)) (key : String) (v : PyVal) :
    dbLookup (dbInsert db key v) key = some v := by
  induction db with
  | nil => simp [dbInsert, dbLookup]
  | cons hd tl ih =>
      obtain ⟨k, w⟩ := hd
      by_cases h : k = key
      · simp [dbInsert, dbLookup, h]
      · simp [dbInsert, dbLookup, h, ih]

/-- Looking up a key right after erasing it fails. -/
theorem dbLookup_dbErase_self (db : List (String × PyVal)) (key : String) :
    dbLookup (dbErase db key) key = Option.none := by
  induction db with
  | nil => simp [dbErase, dbLookup]
  | cons hd tl ih =>
      obtain ⟨k, w⟩ := hd
      by_cases h : k = key
      · simp [dbErase, h, ih]
      · simp [dbErase, dbLookup, h, ih]

/-! ## Claims -/

/-- C6: for every farmer_id and profile, `create_or_update_profile` followed
by `get_profile` on the resulting store returns exactly the profile written,
and the upsert itself returns the stored value. -/
theorem upsert_get_roundtrip (db : Db) (farmer_id : String) (profile : PyVal) :
    get_profile (create_or_update_profile db farmer_id profile).1 farmer_id = some profile ∧
    (create_or_update_profile db farmer_id profile).2 = Except.ok profile := by
  unfold create_or_update_profile get_profile
  refine ⟨dbLookup_dbInsert_self db farmer_id profile, ?_⟩
  simp [dbLookup_dbInsert_self db farmer_id profile]

/-- C7: `delete_profile` on an absent farmer_id returns false and leaves the
store unchanged (so every lookup afterwards agrees with the store before);
on a present farmer_id it returns true and a subsequent `get_profile` of
that id indicates absence. -/
theorem delete_profile_spec (db : Db) (farmer_id : String) :
    (get_profile db farmer_id = Option.none →
      delete_profile db farmer_id = (db, false) ∧
      ∀ other : String,
        get_profile (delete_profile db farmer_id).1 other = get_profile db other) ∧
    (get_profile db farmer_id ≠ Option.none →
      (delete_profile db farmer_id).2 = true ∧
      get_profile (delete_profile db farmer_id).1 farmer_id = Option.none) := by
  constructor
  · intro habs
    have hkey : dbHasKey db farmer_id = false := by
      unfold dbHasKey
      unfold get_profile at habs
      simp [habs]
    constructor
    · unfold delete_profile
      simp [hkey]
    · intro other
      unfold delete_profile
      simp [hkey]
  · intro hpres
    have hkey : dbHasKey db farmer_id = true := by
      unfold dbHasKey
      unfold get_profile at hpres
      simpa [Option.isSome_iff_ne_none] using hpres
    constructor
    · unfold delete_profile
      simp [hkey]
    · unfold delete_profile get_profile
      simp [hkey, dbLookup_dbErase_self]

/-- Witness for C7 at a concrete store: deleting a missing id is a no-op
returning false, deleting a present id returns true and the id is gone. -/
theorem delete_profile_spec_witness :
    delete_profile [("farmer_001", PyVal.vStr "p")] "ghost" =
      ([("farmer_001", PyVal.vStr "p")], false) ∧
    (delete_profile [("farmer_001", PyVal.vStr "p")] "farmer_001").2 = true ∧
    get_profile (delete_profile [("farmer_001", PyVal.vStr "p")] "farmer_001").1
      "farmer_001" = Option.none := by
  refine ⟨((delete_profile_spec [("farmer_001", PyVal.vStr "p")] "ghost").1 (by rfl)).1, ?_⟩
  exact (delete_profile_spec [("farmer_001", PyVal.vStr "p")] "farmer_001").2 (by
    intro h
    simp [get_profile, dbLookup] at h)

/-- C8: `recommend_for_farmer` for a farmer_id with no stored profile
returns the no-profile error result and sends no prompt to the external
service. -/
theorem recommend_unknown_farmer (db : Db) (gemini : String → Except PyExc String)
    (farmer_id : String) (context : PyVal)
    (h : get_profile db farmer_id = Option.none) :
    recommend_for_farmer db gemini farmer_id context = (noProfileError farmer_id, []) := by
  unfold recommend_for_farmer
  simp [h]

/-- Witness for C8: the empty store has no profile for farmer_001, and the
recommendation is the error result with no external call. -/
theorem recommend_unknown_farmer_witness :
    get_profile ([] : Db) "farmer_001" = Option.none ∧
    recommend_for_farmer ([] : Db) (fun _ => Except.ok "text") "farmer_001"
      (PyVal.vDict []) = (noProfileError "farmer_001", []) :=
  ⟨rfl, recommend_unknown_farmer [] (fun _ => Except.ok "text") "farmer_001"
    (PyVal.vDict []) rfl⟩

/-- C10: a stored profile that is the empty dict is treated as absent —
`if not profile:` tests truthiness, the empty dict is falsy, so
`recommend_for_farmer` returns the no-profile error result and never
contacts the external service. -/
theorem recommend_empty_profile (db : Db) (gemini : String → Except PyExc String)
    (farmer_id : String) (context : PyVal)
    (h : get_profile db farmer_id = some (PyVal.vDict [])) :
    recommend_for_farmer db gemini farmer_id context = (noProfileError farmer_id, []) := by
  unfold recommend_for_farmer
  simp [h, pyTruthy]

/-- Witness for C10: after upserting the empty record for farmer_001, the
lookup succeeds with `{}` yet the recommendation is the no-profile error
with no external call. -/
theorem recommend_empty_profile_witness :
    get_profile (create_or_update_profile [] "farmer_001" (PyVal.vDict [])).1
      "farmer_001" = some (PyVal.vDict []) ∧
    recommend_for_farmer (create_or_update_profile [] "farmer_001" (PyVal.vDict [])).1
      (fun _ => Except.ok "text") "farmer_001" marketMock =
      (noProfileError "farmer_001", []) :=
  ⟨rfl, recommend_empty_profile _ (fun _ => Except.ok "text") "farmer_001" marketMock rfl⟩

/-- C9 counterexample: constructing the weather agent without the API key
succeeds (it merely stores the absent key), so absence of the key is not a
construction-time failure for every component needing the service. -/
theorem weather_init_no_key_succeeds :
    weatherAgentInit Option.none = Except.ok Option.none := rfl

/-- C9 amended: only the orchestrator treats the missing (or empty) key as
fatal at construction; the weather agent and the composer construct
successfully without the key, and the composer's `_call_gemini` raises
`RuntimeError` only when a call is made (before any request is sent). -/
theorem api_key_initialization (k : Option String)
    (http : String → Except PyExc PyVal) (prompt : String) :
    (k = Option.none ∨ k = some "" →
      managerAgentInit k =
        Except.error (.valueError "GEMINI_API_KEY is not set in the .env file.")) ∧
    weatherAgentInit k = Except.ok k ∧
    farmerProfileAgentInit = Except.ok () ∧
    (k = Option.none ∨ k = some "" →
      call_gemini k http prompt =
        Except.error (.runtimeError "GEMINI_API_KEY not set in .env")) := by
  refine ⟨?_, rfl, rfl, ?_⟩
  · rintro (rfl | rfl) <;> rfl
  · rintro (rfl | rfl) <;> rfl

/-- Witness for C9 amended at the absent key: the manager fails to
construct, the weather agent constructs, and the composer's call raises. -/
theorem api_key_initialization_witness :
    managerAgentInit Option.none =
      Except.error (.valueError "GEMINI_API_KEY is not set in the .env file.") ∧
    weatherAgentInit Option.none = Except.ok Option.none ∧
    call_gemini Option.none (fun _ => Except.ok (PyVal.vDict [])) "prompt" =
      Except.error (.runtimeError "GEMINI_API_KEY not set in .env") :=
  ⟨(api_key_initialization Option.none (fun _ => Except.ok (PyVal.vDict [])) "prompt").1
      (Or.inl rfl),
   (api_key_initialization Option.none (fun _ => Except.ok (PyVal.vDict [])) "prompt").2.1,
   (api_key_initialization Option.none (fun _ => Except.ok (PyVal.vDict [])) "prompt").2.2.2
      (Or.inl rfl)⟩

/-- Every successful run of rules 2–4 lands on one of their three advice
strings. -/
theorem adviceRulesTail_ok_cases (condition : PyVal) (r : String)
    (h : adviceRulesTail condition = Except.ok r) :
    r = droughtAdvice ∨ r = humidAdvice ∨ r = genericAdvice := by
  unfold adviceRulesTail at h
  repeat' split at h
  all_goals simp_all

/-- Every successful run of the whole rule chain lands on one of the four
canonical strings. -/
theorem adviceRules_ok_cases (alkaline : Bool) (condition : PyVal) (r : String)
    (h : adviceRules alkaline condition = Except.ok r) :
    r = paddyAdvice ∨ r = droughtAdvice ∨ r = humidAdvice ∨ r = genericAdvice := by
  unfold adviceRules at h
  repeat' split at h
  · simp_all
  · simp_all
  · exact Or.inr (adviceRulesTail_ok_cases _ r h)

/-- Every successful run of the advice rule body lands on one of the four
canonical strings. -/
theorem adviceTryBody_ok_cases (soil weather market : PyVal) (r : String)
    (h : adviceTryBody soil weather market = Except.ok r) :
    r = paddyAdvice ∨ r = droughtAdvice ∨ r = humidAdvice ∨ r = genericAdvice := by
  unfold adviceTryBody at h
  repeat' split at h
  · simp_all
  · simp_all
  · simp_all
  · exact adviceRules_ok_cases _ _ r h

/-- Helper: when a pipeline step raises, `on_message` returns the single
formatted error string for that exception. -/
theorem on_message_of_raise (c : Collaborators) (message : String) (e : PyExc)
    (h : StepRaises c e) :
    on_message c message = "❌ Error: An exception occurred: " ++ PyExc.msg e := by
  unfold on_message onMessageBody
  rcases h with h | ⟨s, hs, h⟩ | ⟨s, w, hs, hw, h⟩ | ⟨s, w, mk, hs, hw, hm, h⟩ |
    ⟨s, w, mk, a, hs, hw, hm, ha, h⟩
  · simp [h]
  · simp [hs, h]
  · simp [hs, hw, h]
  · simp [hs, hw, hm, h]
  · simp [hs, hw, hm, ha, h]

/-- C5: `generate_advice` is total — on every input triple it returns a
string that is one of the four canonical advice strings or the
exception-fallback string describing the failure; no exception escapes. -/
theorem generate_advice_never_raises (soil weather market : PyVal) :
    generate_advice soil weather market = paddyAdvice ∨
    generate_advice soil weather market = droughtAdvice ∨
    generate_advice soil weather market = humidAdvice ∨
    generate_advice soil weather market = genericAdvice ∨
    ∃ e : PyExc, generate_advice soil weather market =
      "Could not generate advice due to: " ++ PyExc.msg e := by
  unfold generate_advice
  cases hb : adviceTryBody soil weather market with
  | error e => exact Or.inr (Or.inr (Or.inr (Or.inr ⟨e, rfl⟩)))
  | ok r =>
      rcases adviceTryBody_ok_cases soil weather market r hb with h | h | h | h <;>
        simp [h]

/-- C2: on a soil dict with a numeric pH and a free-text weather condition,
`generate_advice` picks exactly the advice of the spec's first-match-wins,
case-insensitive precedence; in particular pH 7.5 with "light rain
expected" gives the paddy advice and pH 6 with "dry and sunny" gives the
drought-tolerant advice. -/
theorem advice_precedence :
    q75 = 15/2 ∧
    (∀ (sd : List (String × PyVal)) (q : ℚ) (c : String) (market : PyVal),
      pyNum (dictGetD sd "pH" (.vInt 7)) = some q →
      generate_advice (.vDict sd) (.vStr c) market = specAdviceRule q (strLower c)) ∧
    generate_advice (.vDict [("pH", .vFloat q75)]) (.vStr "light rain expected")
      marketMock = paddyAdvice ∧
    generate_advice (.vDict [("pH", .vInt 6)]) (.vStr "dry and sunny")
      marketMock = droughtAdvice := by
  refine ⟨?_, ?_, rfl, rfl⟩
  · unfold q75
    rw [Rat.mk'_eq_divInt]
    norm_num [Rat.divInt_eq_div]
  intro sd q c market h
  by_cases h1 : q > 7 <;>
    by_cases h2 : strContains (strLower c) "rain" = true <;>
      by_cases h3 : strContains (strLower c) "dry" = true <;>
        by_cases h4 : strContains (strLower c) "sunny" = true <;>
          by_cases h5 : strContains (strLower c) "humid" = true <;>
            simp [generate_advice, adviceTryBody, adviceRules, adviceRulesTail,
              extractCondition, lowerIfStr, soilGetPH, pyGtSeven, h, pyInStr,
              specAdviceRule, h1, h2, h3, h4, h5]

/-- Witness for C2 at pH 7.5 and condition "light rain expected". -/
theorem advice_precedence_witness :
    pyNum (dictGetD [("pH", PyVal.vFloat q75)] "pH" (.vInt 7)) = some q75 ∧
    generate_advice (.vDict [("pH", PyVal.vFloat q75)])
      (.vStr "light rain expected") marketMock =
      specAdviceRule q75 (strLower "light rain expected") :=
  ⟨rfl, advice_precedence.2.1 [("pH", PyVal.vFloat q75)] q75
    "light rain expected" marketMock rfl⟩

/-- C4 counterexample: a weather value of unrecognized shape (`None`) does
not behave as an empty condition — the membership test raises `TypeError`
and `generate_advice` returns the exception fallback, not the generic
advice. -/
theorem weather_none_gives_fallback :
    generate_advice soilMock PyVal.vNone marketMock =
      "Could not generate advice due to: argument of type 'NoneType' is not iterable" ∧
    generate_advice soilMock PyVal.vNone marketMock ≠ genericAdvice := by
  constructor
  · rfl
  · decide

/-- C4 amended: a dict weather without a `condition` field — including a
raw-output wrapper dict, whose raw output is *not* extracted — yields the
empty condition and hence the generic advice (given a numeric soil pH);
but a non-dict, non-string weather value such as `None` raises in the
membership test and yields the exception-fallback string instead. -/
theorem weather_shape_normalization :
    (∀ (wd sd : List (String × PyVal)) (q : ℚ) (market : PyVal),
      dbLookup wd "condition" = Option.none →
      pyNum (dictGetD sd "pH" (.vInt 7)) = some q →
      generate_advice (.vDict sd) (.vDict wd) market = genericAdvice) ∧
    generate_advice (.vDict [("pH", PyVal.vFloat q75)])
      (.vDict [("raw_output", .vStr "heavy rain")]) marketMock = genericAdvice ∧
    generate_advice soilMock PyVal.vNone marketMock =
      "Could not generate advice due to: argument of type 'NoneType' is not iterable" := by
  refine ⟨?_, rfl, rfl⟩
  intro wd sd q market hw h
  simp only [dictGetD] at h
  by_cases h1 : q > 7 <;>
    simp [generate_advice, adviceTryBody, adviceRules, adviceRulesTail,
      extractCondition, lowerIfStr, soilGetPH, pyGtSeven, h, pyInStr, dictGetD,
      hw, strContains, strLower, charSub, charPrefix, h1]

/-- Witness for C4 amended: a dict weather carrying only temperature data
has no condition field and produces the generic advice. -/
theorem weather_shape_normalization_witness :
    dbLookup [("temperature", PyVal.vStr "31C")] "condition" = Option.none ∧
    pyNum (dictGetD [("pH", PyVal.vFloat q68)] "pH" (.vInt 7)) = some q68 ∧
    generate_advice (.vDict [("pH", PyVal.vFloat q68)])
      (.vDict [("temperature", PyVal.vStr "31C")]) marketMock = genericAdvice :=
  ⟨rfl, rfl, weather_shape_normalization.1 [("temperature", PyVal.vStr "31C")]
    [("pH", PyVal.vFloat q68)] q68 marketMock rfl rfl⟩

/-- C3: whichever pipeline step raises, `on_message` never raises: it
catches the exception, discards all partial results, and returns exactly
the single user-facing error string for that exception. -/
theorem orchestrator_catches_all (c : Collaborators) (message : String) (e : PyExc)
    (h : StepRaises c e) :
    on_message c message = "❌ Error: An exception occurred: " ++ PyExc.msg e :=
  on_message_of_raise c message e h

/-- Collaborators whose weather step raises, all other agents being the
embedded real ones (the spec's test scenario: a thrown fault in the
weather step). -/
def faultyWeatherCollabs : Collaborators where
  analyze_soil := Except.ok soilMock
  get_forecast := fun _ => Except.error (.runtimeError "weather service down")
  get_prices := Except.ok marketMock
  practice_advice := fun s w m => Except.ok (generate_advice s w m)
  recommend := fun fid ctx =>
    Except.ok (recommend_for_farmer [] (fun _ => Except.error (.other "no network"))
      fid ctx).1

/-- Witness for C3: a thrown fault in the weather step yields exactly the
single error report. -/
theorem orchestrator_catches_all_witness :
    on_message faultyWeatherCollabs "advise me" =
      "❌ Error: An exception occurred: weather service down" :=
  orchestrator_catches_all faultyWeatherCollabs "advise me"
    (.runtimeError "weather service down")
    (Or.inr (Or.inl ⟨soilMock, rfl, rfl⟩))

/-- Collaborators where every step succeeds but the composer (the embedded
real `recommend_for_farmer`, with a profile present and the network down)
returns an `{error: ...}` result dict instead of raising. -/
def errorComposerCollabs : Collaborators where
  analyze_soil := Except.ok soilMock
  get_forecast := fun _ => Except.ok (.vDict [("condition", .vStr "cloudy")])
  get_prices := Except.ok marketMock
  practice_advice := fun s w m => Except.ok (generate_advice s w m)
  recommend := fun fid ctx =>
    Except.ok (recommend_for_farmer [("farmer_001", .vDict [("name", .vStr "Ram")])]
      (fun _ => Except.error (.other "network unreachable")) fid ctx).1

set_option maxRecDepth 100000 in
/-- C1 counterexample: when the composer returns an `{error: ...}` dict,
`on_message` does *not* return a single error string — it returns a report
that embeds the soil and market intermediate results (and the error dict),
and does not start with the error prefix. -/
theorem orchestrator_embeds_error_result :
    strContains (on_message errorComposerCollabs "advise me") "**Soil Data:**" = true ∧
    strContains (on_message errorComposerCollabs "advise me") "'pH': 6.8" = true ∧
    strContains (on_message errorComposerCollabs "advise me")
      "Failed to call Gemini: network unreachable" = true ∧
    strStarts (on_message errorComposerCollabs "advise me") "❌ Error" = false := by
  refine ⟨?_, ?_, ?_, ?_⟩ <;> rfl

/-- C1 amended: when a step raises, the entry point returns only the single
readable error string (no partial report); but when the composer returns an
`{error: ...}` result dict without raising, the entry point returns the
full report embedding every intermediate result, with the error dict shown
in place of the recommendation. -/
theorem orchestrator_failure_surface (c : Collaborators) (message : String) (e : PyExc)
    (soil weather market : PyVal) (advice : String) (err : PyVal) :
    (StepRaises c e →
      on_message c message = "❌ Error: An exception occurred: " ++ PyExc.msg e) ∧
    on_message
      { analyze_soil := Except.ok soil
        get_forecast := fun _ => Except.ok weather
        get_prices := Except.ok market
        practice_advice := fun _ _ _ => Except.ok advice
        recommend := fun _ _ => Except.ok (.vDict [("error", err)]) }
      message =
      reportString "Andhra Pradesh" soil weather market advice
        (.vDict [("error", err)]) := by
  refine ⟨on_message_of_raise c message e, ?_⟩
  rfl

/-- Witness for C1 amended: a raising market step yields the single error
string, while a concrete composer error dict yields the full report. -/
theorem orchestrator_failure_surface_witness :
    on_message
      { analyze_soil := Except.ok soilMock
        get_forecast := fun _ => Except.ok (.vStr "sunny")
        get_prices := Except.error (.other "market feed down")
        practice_advice := fun s w m => Except.ok (generate_advice s w m)
        recommend := fun _ _ => Except.ok (.vDict []) }
      "hello" = "❌ Error: An exception occurred: market feed down" ∧
    on_message
      { analyze_soil := Except.ok soilMock
        get_forecast := fun _ => Except.ok (.vStr "sunny")
        get_prices := Except.ok marketMock
        practice_advice := fun _ _ _ => Except.ok genericAdvice
        recommend := fun _ _ => Except.ok (.vDict [("error", .vStr "boom")]) }
      "hello" =
      reportString "Andhra Pradesh" soilMock (.vStr "sunny") marketMock genericAdvice
        (.vDict [("error", .vStr "boom")]) :=
  ⟨(orchestrator_failure_surface _ "hello" (.other "market feed down")
      soilMock (.vStr "sunny") marketMock genericAdvice (.vStr "boom")).1
      (Or.inr (Or.inr (Or.inl ⟨soilMock, .vStr "sunny", rfl, rfl, rfl⟩))),
   (orchestrator_failure_surface
      { analyze_soil := Except.ok soilMock
        get_forecast := fun _ => Except.ok (.vStr "sunny")
        get_prices := Except.ok marketMock
        practice_advice := fun _ _ _ => Except.ok genericAdvice
        recommend := fun _ _ => Except.ok (.vDict []) }
      "hello" (.other "unused")
      soilMock (.vStr "sunny") marketMock genericAdvice (.vStr "boom")).2⟩

end KisaanMitra
